import Mathlib

/-!
Verification development for the local-perplexity pipeline.

Shallow embedding of `src/schemas.py`, `src/prompts.py`, `src/perplexity.py`
and `src/perplexity_optimized.py`.  The external collaborators (the Tavily
search client and the two Ollama language-model roles) are modelled as
function-valued environment records whose results are `Except`: a `.error`
value models a raised exception, an `.ok` value a normal return.  Python
strings are modelled as Lean `String` (a list of characters), so slicing,
`len`, `strip` and friends are character-level operations, matching CPython
semantics for `str`.
-/

/-! ### Python string primitives -/

/-- Characters stripped by Python `str.strip()` with no argument:
space, tab, newline, carriage return, vertical tab, form feed. -/
def pyWhitespace (c : Char) : Bool :=
  c = ' ' || c = '\t' || c = '\n' || c = '\r' || c = Char.ofNat 11 || c = Char.ofNat 12

/-- Python `s.strip()` (both ends, default whitespace set). -/
def pyStrip (s : String) : String :=
  String.mk (((s.data.dropWhile pyWhitespace).reverse.dropWhile pyWhitespace).reverse)

/-- Python `s.lstrip(chars)`: drop leading characters belonging to `cs`. -/
def pyLStrip (cs : List Char) (s : String) : String :=
  String.mk (s.data.dropWhile (fun c => cs.contains c))

/-- Python `s.lower()` (ASCII case mapping, which is what the inputs here use). -/
def pyLower (s : String) : String :=
  String.mk (s.data.map Char.toLower)

/-- Python `s.split(sep)` for a one-character separator, on the character
list: splitting the empty string yields one empty part. -/
def pySplitChar (sep : Char) : List Char → List (List Char)
  | [] => [[]]
  | c :: rest =>
    match pySplitChar sep rest with
    | [] => [[]]
    | cur :: parts => if c = sep then [] :: cur :: parts else (c :: cur) :: parts

/-- Python `s.split(sep)` for a one-character separator. -/
def pySplitOn (sep : Char) (s : String) : List String :=
  (pySplitChar sep s.data).map String.mk

/-- Python slicing `s[:n]`: the first `n` characters of `s`. -/
def pyTake (s : String) (n : Nat) : String :=
  String.mk (s.data.take n)

/-! ### Data model, from `src/schemas.py` -/

/-- `schemas.QueryResult`: the durable unit accumulated by the search loop. -/
structure QueryResult where
  title : String
  url : String
  resume : String
deriving Repr, DecidableEq

/-- `schemas.ReportState`: the pipeline state threaded through the graph. -/
structure ReportState where
  user_input : String := ""
  queries : List String := []
  queries_results : List QueryResult := []
  final_response : String := ""
deriving Repr, DecidableEq

/-- A LangGraph node returns a partial state update: a Python dict holding a
subset of the `ReportState` fields.  `none` means "key absent from the dict". -/
structure StateUpdate where
  user_input : Option String := none
  queries : Option (List String) := none
  queries_results : Option (List QueryResult) := none
  final_response : Option String := none
deriving Repr, DecidableEq

/-- LangGraph's additive merge of a node's returned dict into the state:
keys present in the update overwrite, absent keys leave the prior value. -/
def mergeUpdate (s : ReportState) (u : StateUpdate) : ReportState :=
  { user_input := u.user_input.getD s.user_input
    queries := u.queries.getD s.queries
    queries_results := u.queries_results.getD s.queries_results
    final_response := u.final_response.getD s.final_response }

/-- One Tavily search hit (`tavily_resp["results"][i]`), a Python dict whose
keys may be absent (`none`) or present; `raw_content` may also be JSON null,
which `dict.get` likewise surfaces as `None`, so both are modelled by `none`. -/
structure SearchHit where
  title : Option String := none
  url : Option String := none
  content : Option String := none
  raw_content : Option String := none
deriving Repr, DecidableEq

/-! ### Prompt templates, from `src/prompts.py` (each `{slot}` becomes a
function argument, substituted exactly where the template places it) -/

/-- `prompts.agent_prompt` with `user_input` substituted. -/
def agent_prompt (user_input : String) : String :=
  "\nYou are a research planner.\n\nYou are working on a project that aims to answer user\x27s questions\nusing sources found online.\n\nYour answer MUST be technical, using up-to-date information.\nCite facts, data and specific information.\n\nHere is the user input\n<USER_INPUT>\n"
  ++ user_input ++ "\n</USER_INPUT>\n"

/-- `prompts.build_queries` with `user_input` substituted. -/
def build_queries (user_input : String) : String :=
  agent_prompt user_input ++
  "\nYour first objective is to build a list of queries\nthat will be used to find answers to the user\x27s question.\n\nReturn 3-5 queries.\n"

/-- `prompts.resume_search` with `user_input` and `search_results` substituted. -/
def resume_search (user_input search_results : String) : String :=
  agent_prompt user_input ++
  "\nYour objective here is to analyze the web search results and make a synthesis,\nemphasising only what is relevant to the user\x27s question.\n\nAfter your work, another agent will use the synthesis to build the final response,\nso keep only useful information. Be concise and clear.\n\nHere are the web search results:\n<SEARCH_RESULTS>\n"
  ++ search_results ++ "\n</SEARCH_RESULTS>\n"

/-- `prompts.build_final_response` with `user_input` and `search_results`
substituted. -/
def build_final_response (user_input search_results : String) : String :=
  agent_prompt user_input ++
  "\nYour objective is to develop a final response to the user using\nthe reports built during the web search.\n\nThe response should contain 500-800 words.\n\nHere are the search results:\n<SEARCH_RESULTS>\n"
  ++ search_results ++ "\n</SEARCH_RESULTS>\n\nCite your references with numbered tags, e.g. [1], inside each paragraph.\n"

/-! ### Collaborator environment for `src/perplexity.py` -/

/-- External collaborators of the base pipeline.  `plannerStructured` is
`planner_llm.with_structured_output(QueryList).invoke(...).queries`,
`plannerInvoke` is `planner_llm.invoke(...).content`, `reasoningInvoke` is
`reasoning_llm.invoke(...).content`, and `tavily` is the `results` list of
`tavily_search(...)` (an absent or empty `results` key is the empty list).
A `.error` result models the call raising an exception. -/
structure Env where
  plannerStructured : String → Except String (List String)
  plannerInvoke : String → Except String String
  reasoningInvoke : String → Except String String
  tavily : String → Except String (List SearchHit)

/-! ### Base pipeline nodes, from `src/perplexity.py` -/

/-- `perplexity.build_first_queries` (lines 47-66): plan queries via
structured extraction; on any exception fall back to the question itself. -/
def build_first_queries (env : Env) (state : ReportState) : StateUpdate :=
  match env.plannerStructured (build_queries state.user_input) with
  | .ok queries => { queries := some queries }
  | .error _ => { queries := some [state.user_input] }

/-- Python `r["content"]`: raises `KeyError` when the key is absent. -/
def getContentKey (r : SearchHit) : Except String String :=
  match r.content with
  | some c => .ok c
  | none => .error "KeyError: content"

/-- `raw = r.get("raw_content") or r["content"]` (perplexity.py line 88):
Python `or` falls through when `raw_content` is `None` or the empty string. -/
def selectRawContent (r : SearchHit) : Except String String :=
  match r.raw_content with
  | some s => if s = "" then getContentKey r else .ok s
  | none => getContentKey r

/-- The body of one iteration of `serial_search`'s loop (lines 81-107): the
whole iteration sits in a `try`, so any raised step yields `none` (the
`except ... continue` path); a zero-result response is skipped explicitly. -/
def processQuery (env : Env) (user_input q : String) : Option QueryResult :=
  match env.tavily q with
  | .error _ => none
  | .ok [] => none
  | .ok (r :: _) =>
    match selectRawContent r with
    | .error _ => none
    | .ok raw =>
      match env.plannerInvoke (resume_search user_input raw) with
      | .error _ => none
      | .ok summary =>
        match r.title, r.url with
        | some t, some u => some { title := t, url := u, resume := summary }
        | _, _ => none

/-- The `for` loop of `perplexity.serial_search` (lines 78-107): queries run
in order, a failed or empty query contributes nothing, the rest continue. -/
def serial_search_loop (env : Env) (user_input : String) : List String → List QueryResult
  | [] => []
  | q :: rest =>
    match processQuery env user_input q with
    | some qr => qr :: serial_search_loop env user_input rest
    | none => serial_search_loop env user_input rest

/-- `perplexity.serial_search` (lines 69-110). -/
def serial_search (env : Env) (state : ReportState) : StateUpdate :=
  { queries_results := some (serial_search_loop env state.user_input state.queries) }

/-- One section of the body block passed to the reasoning model
(perplexity.py lines 123-126). -/
def bodyPart (idx : Nat) (res : QueryResult) : String :=
  "[" ++ toString idx ++ "]\nTitle: " ++ res.title ++ "\nURL: " ++ res.url ++
  "\nContent: " ++ res.resume ++ "\n----------------\n"

/-- One reference-list entry (perplexity.py line 127). -/
def refPart (idx : Nat) (res : QueryResult) : String :=
  "[" ++ toString idx ++ "] - [" ++ res.title ++ "](" ++ res.url ++ ")"

/-- The enumerated body sections, `enumerate(results, start=1)` then format. -/
def bodyLines (rs : List QueryResult) : List String :=
  (rs.enumFrom 1).map (fun p => bodyPart p.1 p.2)

/-- The enumerated reference entries, same enumeration as `bodyLines`. -/
def refLines (rs : List QueryResult) : List String :=
  (rs.enumFrom 1).map (fun p => refPart p.1 p.2)

/-- `"".join(body_parts)` (perplexity.py line 131). -/
def bodyOf (rs : List QueryResult) : String := String.join (bodyLines rs)

/-- `"\n".join(ref_parts)` (perplexity.py line 136). -/
def refsOf (rs : List QueryResult) : String := String.intercalate "\n" (refLines rs)

/-- The fixed no-information message of `perplexity.final_writer` (line 118). -/
def noInfoMsg : String :=
  "Não foi possível encontrar informações relevantes para sua pergunta."

/-- `perplexity.final_writer` (lines 113-140). -/
def final_writer (env : Env) (state : ReportState) : StateUpdate :=
  if state.queries_results.isEmpty then
    { final_response := some noInfoMsg }
  else
    match env.reasoningInvoke
        (build_final_response state.user_input (bodyOf state.queries_results)) with
    | .ok final_text =>
      { final_response :=
          some (final_text ++ "\n\nReferences:\n" ++ refsOf state.queries_results) }
    | .error e =>
      { final_response := some ("Erro ao gerar resposta: " ++ e) }

/-- The compiled graph of `perplexity.create_graph` run on an initial state
holding only `user_input` (perplexity.py lines 146-160 and 178-184): the three
nodes run in order, each returned dict merged additively into the state; the
terminal output is the `final_response` field. -/
def run (env : Env) (question : String) : String :=
  let s0 : ReportState := { user_input := question }
  let s1 := mergeUpdate s0 (build_first_queries env s0)
  let s2 := mergeUpdate s1 (serial_search env s1)
  let s3 := mergeUpdate s2 (final_writer env s2)
  s3.final_response

/-! ### Optimized pipeline, from `src/perplexity_optimized.py` -/

namespace Optimized

/-- External collaborators of the optimized pipeline: the single cached
`ChatOllama` model (`get_llm().invoke(...).content`) and the Tavily search
`results` list; `.error` models a raised exception. -/
structure OEnv where
  invoke : String → Except String String
  tavily : String → Except String (List SearchHit)

/-- `perplexity_optimized.QUERY_PROMPT` with `user_input` substituted in both
slots. -/
def QUERY_PROMPT (user_input : String) : String :=
  "Create 2-3 specific search queries to answer: \"" ++ user_input ++
  "\"\n\nExamples:\nQuestion: \"How do neural networks work?\"\nQueries:\n- neural networks explained\n- how neural networks learn\n- neural network architecture\n\nNow create queries for: \""
  ++ user_input ++ "\"\nReturn only the queries, one per line:"

/-- `perplexity_optimized.FINAL_PROMPT` with `user_input` (two slots) and
`search_results` substituted. -/
def FINAL_PROMPT (user_input search_results : String) : String :=
  "You are an AI assistant providing comprehensive answers using clean Markdown formatting.\n\nQuestion: "
  ++ user_input ++ "\n\nSearch Results:\n" ++ search_results ++
  "\n\nWrite a detailed answer using ONLY standard Markdown formatting:\n- Use # for main title, ## for major sections, ### for subsections\n- Use **bold** for important terms\n- Use - for bullet points (single dash with space)\n- Use numbered lists (1. 2. 3.) for sequential steps\n- Use > for important quotes or key insights\n- Reference sources as [1], [2] naturally in text\n- Keep paragraphs clean with line breaks\n- Structure: Introduction → Key Concepts → Details → Applications\n\nWrite in clean Markdown format:\n\n# "
  ++ user_input ++
  "\n\n[Your detailed answer here using proper Markdown]\n\n## Sources\n[You don\x27t need to write sources section, just the answer]\n"

/-- One line of the model output, cleaned as in `generate_queries` line 87:
`line.strip().lstrip('- ').lstrip('1234567890. ')`. -/
def parseLine (line : String) : String :=
  pyLStrip ['1','2','3','4','5','6','7','8','9','0','.',' ']
    (pyLStrip ['-',' '] (pyStrip line))

/-- The filter of `generate_queries` line 88: `if line and len(line) > 3`. -/
def keepLine (line : String) : Bool :=
  line ≠ "" && line.length > 3

/-- `perplexity_optimized.generate_queries` (lines 75-106): parse the model
output line by line, fall back to templated queries when nothing parses, cap
at three queries; on a raised exception return two lowercased fallbacks. -/
def generate_queries (env : OEnv) (state : ReportState) : StateUpdate :=
  match env.invoke (QUERY_PROMPT state.user_input) with
  | .ok content =>
    let lines := pySplitOn '\n' (pyStrip content)
    let queries := (lines.map parseLine).filter keepLine
    let queries :=
      if queries.isEmpty then
        let base_terms := pyLower state.user_input
        [base_terms ++ " explained", "what is " ++ base_terms,
         "how does " ++ base_terms ++ " work"]
      else queries
    { queries := some (queries.take 3) }
  | .error _ =>
    let base := pyLower state.user_input
    { queries := some [base, "what is " ++ base] }

/-- `content = r.get("raw_content") or r.get("content", "")` followed by
`content = content[:1000] if content else ""` (lines 121-122). -/
def selectContentO (r : SearchHit) : String :=
  let content :=
    match r.raw_content with
    | some s => if s = "" then r.content.getD "" else s
    | none => r.content.getD ""
  if content = "" then "" else pyTake content 1000

/-- The `QueryResult` built for one hit in `execute_search` (lines 124-128):
every field defaulted via `dict.get`, content truncated beforehand. -/
def mkResult (r : SearchHit) : QueryResult :=
  { title := r.title.getD "Sem título"
    url := r.url.getD ""
    resume := selectContentO r }

/-- The loop of `perplexity_optimized.execute_search` (lines 112-134): the
`try` wraps the whole `for`, so a raised search aborts the remaining queries
and the results collected so far are returned; an empty `results` list merely
skips that query. -/
def execute_search_loop (env : OEnv) (queries : List String)
    (acc : List QueryResult) : List QueryResult :=
  match queries with
  | [] => acc
  | q :: rest =>
    match env.tavily q with
    | .error _ => acc
    | .ok [] => execute_search_loop env rest acc
    | .ok (r :: _) => execute_search_loop env rest (acc ++ [mkResult r])

/-- `perplexity_optimized.execute_search` (lines 108-137). -/
def execute_search (env : OEnv) (state : ReportState) : StateUpdate :=
  { queries_results := some (execute_search_loop env state.queries []) }

/-- The fixed no-information message of `write_response` (line 142). -/
def noInfoMsg : String :=
  "Não foi possível encontrar informações relevantes."

/-- One context entry `f"[{i}] {res.title}: {res.resume}"` (line 147). -/
def contextEntry (p : Nat × QueryResult) : String :=
  "[" ++ toString p.1 ++ "] " ++ p.2.title ++ ": " ++ p.2.resume

/-- `"\n\n".join(search_context)` over `enumerate(results, 1)` (lines 145-149). -/
def oContext (rs : List QueryResult) : String :=
  String.intercalate "\n\n" ((rs.enumFrom 1).map contextEntry)

/-- `perplexity_optimized.write_response` (lines 139-163): short-circuit on an
empty accumulation, otherwise return the stripped model output; a raised
exception degrades to an error-description string.  No reference list is
appended in any path. -/
def write_response (env : OEnv) (state : ReportState) : StateUpdate :=
  if state.queries_results.isEmpty then
    { final_response := some noInfoMsg }
  else
    match env.invoke (FINAL_PROMPT state.user_input (oContext state.queries_results)) with
    | .ok content => { final_response := some (pyStrip content) }
    | .error e => { final_response := some ("Erro ao gerar resposta: " ++ e) }

end Optimized

/-- The first two stages of the optimized graph (`create_graph`, lines
169-182) on an initial state holding only `user_input`. -/
def oStage2 (env : Optimized.OEnv) (question : String) : ReportState :=
  let s0 : ReportState := { user_input := question }
  let s1 := mergeUpdate s0 (Optimized.generate_queries env s0)
  mergeUpdate s1 (Optimized.execute_search env s1)

/-- The full optimized graph run: all three stages merged in order, terminal
output the `final_response` field. -/
def runO (env : Optimized.OEnv) (question : String) : String :=
  let s2 := oStage2 env question
  (mergeUpdate s2 (Optimized.write_response env s2)).final_response

/-! ### Shape lemmas: each node returns a dict holding exactly its own field -/

lemma build_first_queries_shape (env : Env) (st : ReportState) :
    ∃ qs, build_first_queries env st = { queries := some qs } := by
  unfold build_first_queries
  cases env.plannerStructured (build_queries st.user_input) <;> exact ⟨_, rfl⟩

lemma final_writer_shape (env : Env) (st : ReportState) :
    ∃ r, final_writer env st = { final_response := some r } := by
  unfold final_writer
  split
  · exact ⟨_, rfl⟩
  · cases env.reasoningInvoke (build_final_response st.user_input (bodyOf st.queries_results)) <;>
      exact ⟨_, rfl⟩

lemma generate_queries_shape (env : Optimized.OEnv) (st : ReportState) :
    ∃ qs, Optimized.generate_queries env st = { queries := some qs } := by
  unfold Optimized.generate_queries
  cases env.invoke (Optimized.QUERY_PROMPT st.user_input) <;> exact ⟨_, rfl⟩

lemma write_response_shape (env : Optimized.OEnv) (st : ReportState) :
    ∃ r, Optimized.write_response env st = { final_response := some r } := by
  unfold Optimized.write_response
  split
  · exact ⟨_, rfl⟩
  · cases env.invoke (Optimized.FINAL_PROMPT st.user_input (Optimized.oContext st.queries_results)) <;>
      exact ⟨_, rfl⟩

lemma oStage2_user_input (env : Optimized.OEnv) (q : String) :
    (oStage2 env q).user_input = q := by
  obtain ⟨qs, h⟩ := generate_queries_shape env { user_input := q }
  simp [oStage2, mergeUpdate, h, Optimized.execute_search]

/-! ### Claim theorems -/

/-- C9: each stage's returned partial update sets only that stage's designated
field (Planner only `queries`, Search Loop only `queries_results`, Synthesizer
only `final_response`), so the additive merge leaves every other previously set
field — in particular `user_input` — unchanged, in both pipeline variants. -/
theorem C9_frame_effect : ∀ (env : Env) (envO : Optimized.OEnv) (st : ReportState),
    ((mergeUpdate st (build_first_queries env st)).user_input = st.user_input
      ∧ (mergeUpdate st (build_first_queries env st)).queries_results = st.queries_results
      ∧ (mergeUpdate st (build_first_queries env st)).final_response = st.final_response)
    ∧ ((mergeUpdate st (serial_search env st)).user_input = st.user_input
      ∧ (mergeUpdate st (serial_search env st)).queries = st.queries
      ∧ (mergeUpdate st (serial_search env st)).final_response = st.final_response)
    ∧ ((mergeUpdate st (final_writer env st)).user_input = st.user_input
      ∧ (mergeUpdate st (final_writer env st)).queries = st.queries
      ∧ (mergeUpdate st (final_writer env st)).queries_results = st.queries_results)
    ∧ ((mergeUpdate st (Optimized.generate_queries envO st)).user_input = st.user_input
      ∧ (mergeUpdate st (Optimized.generate_queries envO st)).queries_results = st.queries_results
      ∧ (mergeUpdate st (Optimized.generate_queries envO st)).final_response = st.final_response)
    ∧ ((mergeUpdate st (Optimized.execute_search envO st)).user_input = st.user_input
      ∧ (mergeUpdate st (Optimized.execute_search envO st)).queries = st.queries
      ∧ (mergeUpdate st (Optimized.execute_search envO st)).final_response = st.final_response)
    ∧ ((mergeUpdate st (Optimized.write_response envO st)).user_input = st.user_input
      ∧ (mergeUpdate st (Optimized.write_response envO st)).queries = st.queries
      ∧ (mergeUpdate st (Optimized.write_response envO st)).queries_results = st.queries_results) := by
  intro env envO st
  obtain ⟨qs1, h1⟩ := build_first_queries_shape env st
  obtain ⟨r1, h2⟩ := final_writer_shape env st
  obtain ⟨qs2, h3⟩ := generate_queries_shape envO st
  obtain ⟨r2, h4⟩ := write_response_shape envO st
  refine ⟨⟨?_, ?_, ?_⟩, ⟨rfl, rfl, rfl⟩, ⟨?_, ?_, ?_⟩, ⟨?_, ?_, ?_⟩, ⟨rfl, rfl, rfl⟩,
    ⟨?_, ?_, ?_⟩⟩ <;> simp [mergeUpdate, h1, h2, h3, h4]

/-- C4: when the accumulated Query Result sequence is empty, both Synthesizer
variants return the fixed no-information message, for every collaborator
environment — in particular for environments whose long-form model always
raises, so the model is never invoked. -/
theorem C4_empty_results_short_circuit :
    (∀ (env : Env) (st : ReportState), st.queries_results = [] →
      final_writer env st = { final_response := some noInfoMsg })
    ∧ (∀ (env : Optimized.OEnv) (st : ReportState), st.queries_results = [] →
      Optimized.write_response env st = { final_response := some Optimized.noInfoMsg }) := by
  constructor
  · intro env st h
    unfold final_writer
    rw [h]
    rfl
  · intro env st h
    unfold Optimized.write_response
    rw [h]
    rfl

/-- An environment whose every collaborator raises, for the C4 witness. -/
def envW4 : Env :=
  ⟨fun _ => .error "down", fun _ => .error "down", fun _ => .error "down", fun _ => .error "down"⟩

/-- The optimized-variant environment whose collaborators raise, for C4. -/
def envW4o : Optimized.OEnv := ⟨fun _ => .error "down", fun _ => .error "down"⟩

/-- C4 witness: a concrete empty accumulation with always-raising models. -/
theorem C4_witness :
    final_writer envW4 { user_input := "q", queries := ["a"] }
        = { final_response := some noInfoMsg }
    ∧ Optimized.write_response envW4o { user_input := "q", queries := ["a"] }
        = { final_response := some Optimized.noInfoMsg } :=
  ⟨C4_empty_results_short_circuit.1 envW4 _ rfl,
   C4_empty_results_short_circuit.2 envW4o _ rfl⟩

/-- C7: when the long-form model invocation raises, neither Synthesizer
variant re-raises: each returns exactly the error-description message, with no
"References:" heading or reference entries appended. -/
theorem C7_synthesis_failure_policy :
    (∀ (env : Env) (st : ReportState) (e : String),
      st.queries_results.isEmpty = false →
      env.reasoningInvoke (build_final_response st.user_input (bodyOf st.queries_results))
        = .error e →
      final_writer env st = { final_response := some ("Erro ao gerar resposta: " ++ e) })
    ∧ (∀ (env : Optimized.OEnv) (st : ReportState) (e : String),
      st.queries_results.isEmpty = false →
      env.invoke (Optimized.FINAL_PROMPT st.user_input (Optimized.oContext st.queries_results))
        = .error e →
      Optimized.write_response env st
        = { final_response := some ("Erro ao gerar resposta: " ++ e) }) := by
  constructor
  · intro env st e hne hinv
    simp [final_writer, hne, hinv]
  · intro env st e hne hinv
    simp [Optimized.write_response, hne, hinv]

/-- A base environment whose models raise `"X"`, for the C7 witness. -/
def envW7 : Env :=
  ⟨fun _ => .error "X", fun _ => .error "X", fun _ => .error "X", fun _ => .error "X"⟩

/-- An optimized environment whose model raises `"X"`, for the C7 witness. -/
def envW7o : Optimized.OEnv := ⟨fun _ => .error "X", fun _ => .error "X"⟩

/-- C7 witness: one accumulated result, models raising `"X"`. -/
theorem C7_witness :
    final_writer envW7 { user_input := "q", queries_results := [⟨"T", "U", "R"⟩] }
        = { final_response := some ("Erro ao gerar resposta: " ++ "X") }
    ∧ Optimized.write_response envW7o { user_input := "q", queries_results := [⟨"T", "U", "R"⟩] }
        = { final_response := some ("Erro ao gerar resposta: " ++ "X") } :=
  ⟨C7_synthesis_failure_policy.1 envW7 _ "X" rfl rfl,
   C7_synthesis_failure_policy.2 envW7o _ "X" rfl rfl⟩

/-! ### C1: totality and non-emptiness of the pipeline output -/

lemma final_writer_pos (env : Env) (st : ReportState) :
    ∃ r, final_writer env st = { final_response := some r } ∧ 0 < r.length := by
  unfold final_writer
  split
  · exact ⟨noInfoMsg, rfl, by decide⟩
  · cases env.reasoningInvoke (build_final_response st.user_input (bodyOf st.queries_results)) with
    | ok t =>
      refine ⟨_, rfl, ?_⟩
      have h1 : (0:Nat) < ("\n\nReferences:\n").length := by decide
      simp only [String.length_append]
      omega
    | error e =>
      refine ⟨_, rfl, ?_⟩
      have h1 : (0:Nat) < ("Erro ao gerar resposta: ").length := by decide
      simp only [String.length_append]
      omega

lemma write_response_cases (env : Optimized.OEnv) (st : ReportState) :
    Optimized.write_response env st = { final_response := some Optimized.noInfoMsg }
    ∨ (∃ e, Optimized.write_response env st
        = { final_response := some ("Erro ao gerar resposta: " ++ e) })
    ∨ (∃ t, env.invoke (Optimized.FINAL_PROMPT st.user_input (Optimized.oContext st.queries_results))
          = .ok t
        ∧ Optimized.write_response env st = { final_response := some (pyStrip t) }) := by
  unfold Optimized.write_response
  split
  · exact Or.inl rfl
  · cases h : env.invoke (Optimized.FINAL_PROMPT st.user_input (Optimized.oContext st.queries_results)) with
    | ok t => exact Or.inr (Or.inr ⟨t, rfl, rfl⟩)
    | error e => exact Or.inr (Or.inl ⟨e, rfl⟩)

/-- The optimized environment for the C1 counterexample: the model always
returns the empty string (a normal, non-raising reply) and every search
returns one hit. -/
def envC1 : Optimized.OEnv :=
  ⟨fun _ => .ok "",
   fun _ => .ok [{ title := some "T", url := some "U", content := some "c" }]⟩

/-- C1 counterexample: for the non-empty question `"q"`, the optimized
pipeline run returns the empty string as `final_response` — the long-form
model replies normally with an empty text, `write_response` strips it and
returns it unchanged — so the claimed non-emptiness fails even though no
collaborator raises. -/
theorem C1_counterexample : runO envC1 "q" = "" := by decide

/-- C1 amended: both pipeline runs are total — no exception of any stage
escapes, for every collaborator behaviour.  The base pipeline's
`final_response` is moreover always non-empty; the optimized pipeline's
`final_response` is the fixed no-information message, an error-description
message, or the stripped output of the long-form model, and only the last of
these can be empty. -/
theorem C1_totality_amended :
    (∀ (env : Env) (q : String), 0 < (run env q).length)
    ∧ (∀ (env : Optimized.OEnv) (q : String),
        runO env q = Optimized.noInfoMsg
        ∨ (∃ e, runO env q = "Erro ao gerar resposta: " ++ e)
        ∨ (∃ t, env.invoke (Optimized.FINAL_PROMPT q
              (Optimized.oContext (oStage2 env q).queries_results)) = .ok t
            ∧ runO env q = pyStrip t)) := by
  constructor
  · have aux : ∀ (env : Env) (st : ReportState),
        0 < ((mergeUpdate st (final_writer env st)).final_response).length := by
      intro env st
      obtain ⟨r, hfw, hr⟩ := final_writer_pos env st
      rw [hfw]
      exact hr
    exact fun env q => aux env _
  · intro env q
    have hu : (oStage2 env q).user_input = q := oStage2_user_input env q
    have hruns : runO env q
        = (mergeUpdate (oStage2 env q)
            (Optimized.write_response env (oStage2 env q))).final_response := rfl
    rcases write_response_cases env (oStage2 env q) with h | ⟨e, h⟩ | ⟨t, hok, h⟩
    · left
      rw [hruns, h]
      rfl
    · right; left
      exact ⟨e, by rw [hruns, h]; rfl⟩
    · right; right
      rw [hu] at hok
      exact ⟨t, hok, by rw [hruns, h]; rfl⟩

/-! ### C3: planner fallback exactness -/

/-- An optimized environment whose query model raises, for C3. -/
def envC3 : Optimized.OEnv := ⟨fun _ => .error "timeout", fun _ => .error "offline"⟩

/-- C3 counterexample: when the optimized Planner's model invocation raises on
the question `"Q"`, its fallback is the two-element lowercased list
`["q", "what is q"]`, not the claimed one-element list `["Q"]`. -/
theorem C3_counterexample :
    (Optimized.generate_queries envC3 { user_input := "Q" }).queries
        = some ["q", "what is q"]
    ∧ ((["q", "what is q"] : List String) == ["Q"]) = false := by decide

/-- C3 amended: when the model invocation raises, neither Planner propagates
the error; the base Planner's query sequence is exactly the one-element list
holding the original question, while the optimized Planner's is exactly the
two-element list of the lowercased question and `"what is "` prefixed to it. -/
theorem C3_planner_fallback_amended :
    (∀ (env : Env) (st : ReportState) (e : String),
      env.plannerStructured (build_queries st.user_input) = .error e →
      build_first_queries env st = { queries := some [st.user_input] })
    ∧ (∀ (env : Optimized.OEnv) (st : ReportState) (e : String),
      env.invoke (Optimized.QUERY_PROMPT st.user_input) = .error e →
      Optimized.generate_queries env st
        = { queries := some [pyLower st.user_input,
                             "what is " ++ pyLower st.user_input] }) := by
  constructor
  · intro env st e h
    simp [build_first_queries, h]
  · intro env st e h
    simp [Optimized.generate_queries, h]

/-- A base environment whose every collaborator raises, for the C3 witness. -/
def envW3 : Env :=
  ⟨fun _ => .error "schema", fun _ => .error "x", fun _ => .error "x", fun _ => .error "x"⟩

/-- An optimized environment whose model raises, for the C3 witness. -/
def envW3o : Optimized.OEnv := ⟨fun _ => .error "schema", fun _ => .error "x"⟩

/-- C3 witness: both fallbacks at the concrete question `"How?"`. -/
theorem C3_witness :
    build_first_queries envW3 { user_input := "How?" } = { queries := some ["How?"] }
    ∧ Optimized.generate_queries envW3o { user_input := "How?" }
        = { queries := some [pyLower "How?", "what is " ++ pyLower "How?"] } :=
  ⟨C3_planner_fallback_amended.1 envW3 _ "schema" rfl,
   C3_planner_fallback_amended.2 envW3o _ "schema" rfl⟩

/-! ### C8: planner output bounds -/

/-- A base environment whose structured extraction returns six queries with a
duplicate, for the C8 counterexample. -/
def envC8 : Env :=
  ⟨fun _ => .ok ["dup", "dup", "a", "b", "c", "d"],
   fun _ => .error "x", fun _ => .error "x", fun _ => .error "x"⟩

/-- C8 counterexample: the base Planner forwards the model's structured list
unmodified, so its output can have six elements with a duplicate — neither the
1–5 bound nor pairwise distinctness holds. -/
theorem C8_counterexample :
    (build_first_queries envC8 { user_input := "Q" }).queries
        = some ["dup", "dup", "a", "b", "c", "d"]
    ∧ (["dup", "dup", "a", "b", "c", "d"] : List String).length = 6
    ∧ decide (["dup", "dup", "a", "b", "c", "d"] : List String).Nodup = false := by decide

lemma take3_length (l : List String) (h : l ≠ []) :
    1 ≤ (l.take 3).length ∧ (l.take 3).length ≤ 3 := by
  have hl : 0 < l.length := List.length_pos.mpr h
  constructor
  · simp only [List.length_take]
    omega
  · simp only [List.length_take]
    omega

/-- C8 amended: on success the base Planner's output is exactly the model's
structured list (no length bound and no distinctness is enforced); the
optimized Planner's output always has between 1 and 3 queries, with
distinctness likewise not enforced. -/
theorem C8_planner_bounds_amended :
    (∀ (env : Env) (st : ReportState) (qs : List String),
      env.plannerStructured (build_queries st.user_input) = .ok qs →
      build_first_queries env st = { queries := some qs })
    ∧ (∀ (env : Optimized.OEnv) (st : ReportState),
      ∃ qs, (Optimized.generate_queries env st).queries = some qs
        ∧ 1 ≤ qs.length ∧ qs.length ≤ 3) := by
  constructor
  · intro env st qs h
    simp [build_first_queries, h]
  · intro env st
    unfold Optimized.generate_queries
    cases h : env.invoke (Optimized.QUERY_PROMPT st.user_input) with
    | error e => exact ⟨_, rfl, by simp⟩
    | ok content =>
      dsimp only
      refine ⟨_, rfl, ?_⟩
      split
      · simp
      · next hq =>
        exact take3_length _ (by simpa using hq)

/-- A base environment returning one structured query, for the C8 witness. -/
def envW8 : Env :=
  ⟨fun _ => .ok ["a"], fun _ => .error "x", fun _ => .error "x", fun _ => .error "x"⟩

/-- An optimized environment for the C8 witness. -/
def envW8o : Optimized.OEnv := ⟨fun _ => .ok "first query line", fun _ => .error "x"⟩

/-- C8 witness: the base passthrough at a concrete one-element list, and the
optimized bound at a concrete environment. -/
theorem C8_witness :
    build_first_queries envW8 { user_input := "Q" } = { queries := some ["a"] }
    ∧ ∃ qs, (Optimized.generate_queries envW8o { user_input := "Q" }).queries = some qs
        ∧ 1 ≤ qs.length ∧ qs.length ≤ 3 :=
  ⟨C8_planner_bounds_amended.1 envW8 _ ["a"] rfl,
   C8_planner_bounds_amended.2 envW8o { user_input := "Q" }⟩

/-! ### C5: reference list structure and cross-consistency -/

lemma get?_map_enumFrom {β : Type} (f : Nat × QueryResult → β) :
    ∀ (rs : List QueryResult) (n i : Nat),
      ((rs.enumFrom n).map f).get? i = (rs.get? i).map (fun r => f (n + i, r)) := by
  intro rs
  induction rs with
  | nil => intro n i; simp
  | cons x xs ih =>
    intro n i
    cases i with
    | zero => simp
    | succ j =>
      simp only [List.enumFrom_cons, List.map_cons, List.get?_cons_succ, ih (n + 1) j,
        Nat.add_succ, Nat.succ_add]

/-- An optimized environment whose long-form model replies `"BODY"`, for C5. -/
def envC5 : Optimized.OEnv := ⟨fun _ => .ok "BODY", fun _ => .error "x"⟩

/-- C5 counterexample: for the non-empty accumulation `[⟨"T","U","R"⟩]` the
optimized Synthesizer returns only the stripped model text `"BODY"`, which is
not the claimed `model text ++ "References:" heading ++ "[1] - [T](U)"`. -/
theorem C5_counterexample :
    (Optimized.write_response envC5
        { user_input := "Q", queries_results := [⟨"T", "U", "R"⟩] }).final_response
      = some "BODY"
    ∧ (("BODY" : String) == "BODY" ++ "\n\nReferences:\n" ++ "[1] - [T](U)") = false := by
  decide

/-- C5 amended: in the base pipeline, for every non-empty accumulation and a
successful model reply, the output is exactly the model text, the literal
"References:" heading, and one `"[n] - [title](url)"` entry per Query Result
in order; entry `i` and body section `i` are built from the same Query Result
with the same dense 1-based index.  The optimized Synthesizer instead returns
only the stripped model text, with no reference list. -/
theorem C5_references_amended :
    (∀ (env : Env) (st : ReportState) (t : String),
      st.queries_results.isEmpty = false →
      env.reasoningInvoke (build_final_response st.user_input (bodyOf st.queries_results))
        = .ok t →
      final_writer env st
        = { final_response := some (t ++ "\n\nReferences:\n" ++ refsOf st.queries_results) })
    ∧ (∀ (rs : List QueryResult) (i : Nat) (h : i < rs.length),
      (refLines rs).get? i = some (refPart (i + 1) (rs.get ⟨i, h⟩))
      ∧ (bodyLines rs).get? i = some (bodyPart (i + 1) (rs.get ⟨i, h⟩)))
    ∧ (∀ (env : Optimized.OEnv) (st : ReportState) (t : String),
      st.queries_results.isEmpty = false →
      env.invoke (Optimized.FINAL_PROMPT st.user_input (Optimized.oContext st.queries_results))
        = .ok t →
      Optimized.write_response env st = { final_response := some (pyStrip t) }) := by
  refine ⟨?_, ?_, ?_⟩
  · intro env st t hne hok
    simp [final_writer, hne, hok]
  · intro rs i h
    constructor
    · rw [refLines, get?_map_enumFrom, List.get?_eq_get h]
      simp [Nat.add_comm]
    · rw [bodyLines, get?_map_enumFrom, List.get?_eq_get h]
      simp [Nat.add_comm]
  · intro env st t hne hok
    simp [Optimized.write_response, hne, hok]

/-- A base environment whose long-form model replies `"ANSWER"`, for C5. -/
def envW5 : Env :=
  ⟨fun _ => .error "x", fun _ => .error "x", fun _ => .ok "ANSWER", fun _ => .error "x"⟩

/-- The concrete two-result accumulation used by the C5 witness. -/
def rsW5 : List QueryResult := [⟨"T1", "U1", "R1"⟩, ⟨"T2", "U2", "R2"⟩]

/-- C5 witness: the full output layout at a concrete two-result state, and the
cross-consistency of reference entry 2 with body section 2. -/
theorem C5_witness :
    final_writer envW5 { user_input := "Q", queries_results := rsW5 }
      = { final_response := some ("ANSWER" ++ "\n\nReferences:\n" ++ refsOf rsW5) }
    ∧ (refLines rsW5).get? 1 = some (refPart 2 (rsW5.get ⟨1, by decide⟩))
    ∧ (bodyLines rsW5).get? 1 = some (bodyPart 2 (rsW5.get ⟨1, by decide⟩)) :=
  ⟨C5_references_amended.1 envW5 _ "ANSWER" rfl rfl,
   (C5_references_amended.2.1 rsW5 1 (by decide)).1,
   (C5_references_amended.2.1 rsW5 1 (by decide)).2⟩

/-! ### C2: per-query failure isolation -/

/-- An optimized environment where searching `"b"` succeeds with one hit and
every other search raises, for the C2 counterexample. -/
def envC2 : Optimized.OEnv :=
  ⟨fun _ => .ok "unused",
   fun q => if q = "b"
     then .ok [{ title := some "TB", url := some "UB", content := some "CB" }]
     else .error "boom"⟩

/-- C2 counterexample: with planned queries `["a", "b"]`, the raised search
for `"a"` aborts the optimized loop, so nothing is collected — even though
processing `"b"` alone would have contributed a full Query Result.  The
claimed "processing continues with every remaining planned query" fails. -/
theorem C2_counterexample :
    (Optimized.execute_search envC2 { user_input := "Q", queries := ["a", "b"] }).queries_results
        = some []
    ∧ (Optimized.execute_search envC2 { user_input := "Q", queries := ["b"] }).queries_results
        = some [⟨"TB", "UB", "CB"⟩] := by decide

lemma execute_search_loop_abort (env : Optimized.OEnv) (q e : String)
    (qs2 : List String) (h : env.tavily q = .error e) :
    ∀ (qs1 : List String) (acc : List QueryResult),
      Optimized.execute_search_loop env (qs1 ++ q :: qs2) acc
        = Optimized.execute_search_loop env qs1 acc := by
  intro qs1
  induction qs1 with
  | nil =>
    intro acc
    simp [Optimized.execute_search_loop, h]
  | cons p rest ih =>
    intro acc
    simp only [List.cons_append, Optimized.execute_search_loop]
    cases env.tavily p with
    | error e' => rfl
    | ok l =>
      cases l with
      | nil => exact ih acc
      | cons r hits => exact ih (acc ++ [Optimized.mkResult r])

/-- C2 amended: in the base pipeline's search loop each query is processed
independently — the results of a concatenation are the concatenated results,
so a failing query contributes nothing while every other planned query is
still processed — and a Query Result is appended only after the full
search-select-summarize chain succeeds, with all three fields set from that
chain.  In the optimized variant a raised search is caught but ends the loop:
the queries after the raising one contribute nothing and the results
collected so far are returned. -/
theorem C2_failure_isolation_amended :
    (∀ (env : Env) (ui : String) (qs1 qs2 : List String),
      serial_search_loop env ui (qs1 ++ qs2)
        = serial_search_loop env ui qs1 ++ serial_search_loop env ui qs2)
    ∧ (∀ (env : Optimized.OEnv) (qs1 : List String) (q : String) (qs2 : List String)
        (e : String),
      env.tavily q = .error e →
      Optimized.execute_search_loop env (qs1 ++ q :: qs2) []
        = Optimized.execute_search_loop env qs1 [])
    ∧ (∀ (env : Env) (ui q : String),
      processQuery env ui q = none
      ∨ (∃ r rest raw summary t u,
          env.tavily q = .ok (r :: rest)
          ∧ selectRawContent r = .ok raw
          ∧ env.plannerInvoke (resume_search ui raw) = .ok summary
          ∧ r.title = some t ∧ r.url = some u
          ∧ processQuery env ui q = some ⟨t, u, summary⟩)) := by
  refine ⟨?_, ?_, ?_⟩
  · intro env ui qs1 qs2
    induction qs1 with
    | nil => simp [serial_search_loop]
    | cons p rest ih =>
      simp only [List.cons_append, serial_search_loop]
      cases processQuery env ui p <;> simp [ih]
  · intro env qs1 q qs2 e h
    exact execute_search_loop_abort env q e qs2 h qs1 []
  · intro env ui q
    cases h1 : env.tavily q with
    | error e => exact Or.inl (by simp [processQuery, h1])
    | ok l =>
      cases l with
      | nil => exact Or.inl (by simp [processQuery, h1])
      | cons r rest =>
        cases h2 : selectRawContent r with
        | error e => exact Or.inl (by simp [processQuery, h1, h2])
        | ok raw =>
          cases h3 : env.plannerInvoke (resume_search ui raw) with
          | error e => exact Or.inl (by simp [processQuery, h1, h2, h3])
          | ok summary =>
            cases h4 : r.title with
            | none => exact Or.inl (by simp [processQuery, h1, h2, h3, h4])
            | some t =>
              cases h5 : r.url with
              | none => exact Or.inl (by simp [processQuery, h1, h2, h3, h4, h5])
              | some u =>
                exact Or.inr ⟨r, rest, raw, summary, t, u, rfl, h2, h3, h4, h5,
                  by simp [processQuery, h1, h2, h3, h4, h5]⟩

/-- An optimized environment where searching `"x"` raises and every other
search returns no hits, for the C2 witness. -/
def envW2 : Optimized.OEnv :=
  ⟨fun _ => .ok "", fun q => if q = "x" then .error "boom" else .ok []⟩

/-- C2 witness: the abort behaviour applied at the concrete planned queries
`["a", "x", "b"]` with the raise at `"x"`. -/
theorem C2_witness :
    Optimized.execute_search_loop envW2 (["a"] ++ "x" :: ["b"]) []
      = Optimized.execute_search_loop envW2 ["a"] [] :=
  C2_failure_isolation_amended.2.1 envW2 ["a"] "x" ["b"] "boom" rfl

/-! ### C6: resume provenance and content selection -/

/-- The selection rule exactly as the claim words it, for comparison with the
code's rule: the long-form raw content if present, otherwise the snippet. -/
def selectedContentClaim (r : SearchHit) : Option String :=
  match r.raw_content with
  | some s => some s
  | none => r.content

/-- A base environment whose summarizer echoes its prompt and whose search
returns one hit with an empty (but present) `raw_content`, for C6. -/
def envC6 : Env :=
  ⟨fun _ => .error "x",
   fun p => .ok p,
   fun _ => .error "x",
   fun _ => .ok [{ title := some "T", url := some "U",
                   content := some "SNIP", raw_content := some "" }]⟩

/-- An optimized environment whose model would reply `"SUMMARY"`, for C6. -/
def envC6o : Optimized.OEnv :=
  ⟨fun _ => .ok "SUMMARY",
   fun _ => .ok [{ title := some "T", url := some "U", content := some "abc" }]⟩

set_option maxRecDepth 40000 in
/-- C6 counterexample: (i) in the base loop, a hit whose `raw_content` is
present but empty is summarized over the snippet `"SNIP"`, not over the
claimed selected content `""` — selection is by Python truthiness, not
presence — and the two summarizer prompts differ; (ii) in the optimized
loop, the appended resume is the hit's content `"abc"`, not the output
`"SUMMARY"` of any model — no summarizer is invoked there. -/
theorem C6_counterexample :
    processQuery envC6 "Q" "q" = some ⟨"T", "U", resume_search "Q" "SNIP"⟩
    ∧ selectedContentClaim
        { title := some "T", url := some "U", content := some "SNIP", raw_content := some "" }
      = some ""
    ∧ (resume_search "Q" "SNIP" == resume_search "Q" "") = false
    ∧ (Optimized.execute_search envC6o { user_input := "Q", queries := ["q"] }).queries_results
      = some [⟨"T", "U", "abc"⟩]
    ∧ (("abc" : String) == "SUMMARY") = false := by decide

lemma execute_search_loop_tavily_only (e e' : Optimized.OEnv)
    (ht : e.tavily = e'.tavily) :
    ∀ (qs : List String) (acc : List QueryResult),
      Optimized.execute_search_loop e qs acc = Optimized.execute_search_loop e' qs acc := by
  intro qs
  induction qs with
  | nil => intro acc; rfl
  | cons q rest ih =>
    intro acc
    simp only [Optimized.execute_search_loop, ht]
    cases e'.tavily q with
    | error err => rfl
    | ok l =>
      cases l with
      | nil => exact ih acc
      | cons r hits => exact ih (acc ++ [Optimized.mkResult r])

/-- C6 amended: in the base loop every appended Query Result's `resume` is
exactly the Summarizer model's output on the original question and the
selected content, where the selected content is the raw content when it is
present and non-empty and the snippet otherwise (the snippet's absence
raising the skip).  In the optimized loop no summarizer model is invoked at
all: the search stage's output is independent of the model collaborator. -/
theorem C6_resume_amended :
    (∀ (env : Env) (ui q : String) (qr : QueryResult),
      processQuery env ui q = some qr →
      ∃ r rest, env.tavily q = .ok (r :: rest)
        ∧ ∃ raw, selectRawContent r = .ok raw
          ∧ env.plannerInvoke (resume_search ui raw) = .ok qr.resume)
    ∧ (∀ (r : SearchHit) (s : String),
      selectRawContent r = .ok s →
      (r.raw_content = some s ∧ s ≠ "")
      ∨ (r.content = some s ∧ (r.raw_content = none ∨ r.raw_content = some "")))
    ∧ (∀ (inv inv' : String → Except String String)
        (tav : String → Except String (List SearchHit)) (st : ReportState),
      Optimized.execute_search ⟨inv, tav⟩ st = Optimized.execute_search ⟨inv', tav⟩ st) := by
  refine ⟨?_, ?_, ?_⟩
  · intro env ui q qr hq
    cases h1 : env.tavily q with
    | error e => simp [processQuery, h1] at hq
    | ok l =>
      cases l with
      | nil => simp [processQuery, h1] at hq
      | cons r rest =>
        cases h2 : selectRawContent r with
        | error e => simp [processQuery, h1, h2] at hq
        | ok raw =>
          cases h3 : env.plannerInvoke (resume_search ui raw) with
          | error e => simp [processQuery, h1, h2, h3] at hq
          | ok summary =>
            cases h4 : r.title with
            | none => simp [processQuery, h1, h2, h3, h4] at hq
            | some t =>
              cases h5 : r.url with
              | none => simp [processQuery, h1, h2, h3, h4, h5] at hq
              | some u =>
                simp only [processQuery, h1, h2, h3, h4, h5, Option.some.injEq] at hq
                exact ⟨r, rest, rfl, raw, h2, by rw [← hq]; exact h3⟩
  · intro r s h
    cases h6 : r.raw_content with
    | none =>
      right
      simp only [selectRawContent, h6] at h
      cases h7 : r.content with
      | none => simp [getContentKey, h7] at h
      | some c =>
        simp only [getContentKey, h7, Except.ok.injEq] at h
        exact ⟨by rw [h], Or.inl rfl⟩
    | some a =>
      simp only [selectRawContent, h6] at h
      by_cases ha : a = ""
      · right
        rw [if_pos ha] at h
        cases h7 : r.content with
        | none => simp [getContentKey, h7] at h
        | some c =>
          simp only [getContentKey, h7, Except.ok.injEq] at h
          exact ⟨by rw [h], Or.inr (by rw [ha])⟩
      · left
        rw [if_neg ha] at h
        simp only [Except.ok.injEq] at h
        exact ⟨by rw [h], by rw [← h]; exact ha⟩
  · intro inv inv' tav st
    unfold Optimized.execute_search
    rw [execute_search_loop_tavily_only ⟨inv, tav⟩ ⟨inv', tav⟩ rfl st.queries []]

/-- A base environment for the C6 witness: the summarizer replies `"SUM"` and
the search returns one full hit. -/
def envW6 : Env :=
  ⟨fun _ => .error "x", fun _ => .ok "SUM", fun _ => .error "x",
   fun _ => .ok [{ title := some "T", url := some "U", content := some "C" }]⟩

/-- C6 witness: the provenance chain at a concrete appended Query Result, the
selection characterization at a concrete hit, and the model-independence of
the optimized search stage at two concrete models. -/
theorem C6_witness :
    (∃ r rest, envW6.tavily "q" = .ok (r :: rest)
      ∧ ∃ raw, selectRawContent r = .ok raw
        ∧ envW6.plannerInvoke (resume_search "Q" raw)
            = .ok (QueryResult.mk "T" "U" "SUM").resume)
    ∧ (({ title := some "T", url := some "U", content := some "C" } : SearchHit).raw_content
          = some "C" ∧ "C" ≠ ""
       ∨ (({ title := some "T", url := some "U", content := some "C" } : SearchHit).content
            = some "C"
          ∧ (({ title := some "T", url := some "U", content := some "C" } : SearchHit).raw_content
              = none
            ∨ ({ title := some "T", url := some "U", content := some "C" } : SearchHit).raw_content
              = some "")))
    ∧ Optimized.execute_search ⟨fun _ => .ok "A", fun _ => .ok []⟩ { user_input := "Q" }
        = Optimized.execute_search ⟨fun _ => .ok "B", fun _ => .ok []⟩ { user_input := "Q" } :=
  ⟨C6_resume_amended.1 envW6 "Q" "q" ⟨"T", "U", "SUM"⟩ rfl,
   C6_resume_amended.2.1 { title := some "T", url := some "U", content := some "C" } "C" rfl,
   C6_resume_amended.2.2 (fun _ => .ok "A") (fun _ => .ok "B") (fun _ => .ok [])
     { user_input := "Q" }⟩

/-! ### C10: optimized resume truncation -/

lemma length_pyTake (s : String) (n : Nat) : (pyTake s n).length ≤ n := by
  have h : (pyTake s n).length = (s.data.take n).length := rfl
  rw [h, List.length_take]
  omega

lemma ifTake_le (x : String) : (if x = "" then "" else pyTake x 1000).length ≤ 1000 := by
  split
  · decide
  · exact length_pyTake x 1000

lemma mkResult_resume_le (r : SearchHit) : (Optimized.mkResult r).resume.length ≤ 1000 := by
  show (Optimized.selectContentO r).length ≤ 1000
  unfold Optimized.selectContentO
  exact ifTake_le _

lemma execute_search_loop_resume_le (env : Optimized.OEnv) :
    ∀ (qs : List String) (acc : List QueryResult),
      (∀ a ∈ acc, a.resume.length ≤ 1000) →
      ∀ qr ∈ Optimized.execute_search_loop env qs acc, qr.resume.length ≤ 1000 := by
  intro qs
  induction qs with
  | nil =>
    intro acc hacc qr hm
    simp only [Optimized.execute_search_loop] at hm
    exact hacc qr hm
  | cons q rest ih =>
    intro acc hacc qr hm
    cases h : env.tavily q with
    | error e =>
      simp only [Optimized.execute_search_loop, h] at hm
      exact hacc qr hm
    | ok l =>
      cases l with
      | nil =>
        simp only [Optimized.execute_search_loop, h] at hm
        exact ih acc hacc qr hm
      | cons r hits =>
        simp only [Optimized.execute_search_loop, h] at hm
        refine ih _ ?_ qr hm
        intro a ha
        rcases List.mem_append.mp ha with h1 | h2
        · exact hacc a h1
        · have ha2 : a = Optimized.mkResult r := by simpa using h2
          rw [ha2]
          exact mkResult_resume_le r

/-- C10: every Query Result appended by the optimized search stage has a
`resume` of at most 1000 characters; when the hit has a non-empty raw content
it is truncated to its first 1000 characters before the Query Result is
constructed, and when both raw content and snippet are missing the resume is
the empty string. -/
theorem C10_resume_truncation :
    (∀ (env : Optimized.OEnv) (st : ReportState) (rs : List QueryResult) (qr : QueryResult),
      (Optimized.execute_search env st).queries_results = some rs →
      qr ∈ rs → qr.resume.length ≤ 1000)
    ∧ (∀ r : SearchHit, r.raw_content = none → r.content = none →
      (Optimized.mkResult r).resume = "")
    ∧ (∀ (r : SearchHit) (s : String), r.raw_content = some s → s ≠ "" →
      (Optimized.mkResult r).resume = pyTake s 1000) := by
  refine ⟨?_, ?_, ?_⟩
  · intro env st rs qr hrs hm
    have h : Optimized.execute_search_loop env st.queries [] = rs := by
      have := hrs
      simp only [Optimized.execute_search, Option.some.injEq] at this
      exact this
    rw [← h] at hm
    exact execute_search_loop_resume_le env st.queries []
      (fun a ha => absurd ha (List.not_mem_nil a)) qr hm
  · intro r h1 h2
    simp [Optimized.mkResult, Optimized.selectContentO, h1, h2]
  · intro r s h1 h2
    simp [Optimized.mkResult, Optimized.selectContentO, h1, h2]

/-- An optimized environment whose search returns one hit, for C10. -/
def envW10 : Optimized.OEnv :=
  ⟨fun _ => .ok "",
   fun _ => .ok [{ title := some "T", url := some "U", content := some "abc" }]⟩

/-- C10 witness: the bound at a concrete appended result, the empty-resume
case at a hit with no content at all, and the truncation at a concrete
non-empty raw content. -/
theorem C10_witness :
    (QueryResult.mk "T" "U" "abc").resume.length ≤ 1000
    ∧ (Optimized.mkResult { }).resume = ""
    ∧ (Optimized.mkResult { title := some "T", raw_content := some "hello" }).resume
        = pyTake "hello" 1000 :=
  ⟨C10_resume_truncation.1 envW10 { user_input := "Q", queries := ["q"] }
      [⟨"T", "U", "abc"⟩] ⟨"T", "U", "abc"⟩ (by decide) (by decide),
   C10_resume_truncation.2.1 { } rfl rfl,
   C10_resume_truncation.2.2 { title := some "T", raw_content := some "hello" } "hello"
     rfl (by decide)⟩
